import Mathlib

/-!
Verification development for the trainerjs ANT+ protocol engine.

Shallow embedding of:
- the frame codec (`Message.encode`, `Message.checksum`, `buildMessage`,
  `UsbDriver.receiveMessage` from `src/ant/Messages.ts` / `src/ant/Driver.ts`),
- the extended-broadcast accessors (`ExtendableMessage`),
- the connection manager (`Node.receiveMessage`, `Node.sendMessage`,
  `Node.disconnect`, `Node.initializeANTConnection` from `src/ant/Node.ts`),
- the retrying send primitive (`UsbDriver.sendMessage`, the variant with the
  1000 ms retry interval),
- the Bushido trainer slope encoding (`BushidoDataMessage` from
  `src/trainers/BushidoTrainer.ts`).

JavaScript numbers on the wire paths are byte values; we model them as `Nat`
with explicit `% 256` where `Uint8Array` truncates.  Array accesses that can
yield `undefined` in JS are modelled with `List.get?` where the code compares
with `===` (so a missing index never equals a number), and with `List.getD _ 0`
where the code applies `& mask` (in JS `undefined & mask` is `0`).
-/

namespace Trainerjs

/-- XOR fold of a byte list, as in `Message.checksumFunction`:
`reduce((prev, cur) => prev ^ cur, 0)`. -/
def xorFold (l : List Nat) : Nat :=
  l.foldl (fun prev cur => prev ^^^ cur) 0

theorem foldl_xor_hoist (l : List Nat) (a : Nat) :
    l.foldl (fun prev cur => prev ^^^ cur) a = a ^^^ xorFold l := by
  induction l generalizing a with
  | nil => simp [xorFold]
  | cons b t ih =>
    simp only [xorFold, List.foldl_cons]
    rw [ih, ih (0 ^^^ b), Nat.zero_xor, Nat.xor_assoc]

theorem xorFold_cons (b : Nat) (l : List Nat) :
    xorFold (b :: l) = b ^^^ xorFold l := by
  simp only [xorFold, List.foldl_cons]
  rw [foldl_xor_hoist, Nat.zero_xor]
  rfl

theorem xorFold_append (u v : List Nat) :
    xorFold (u ++ v) = xorFold u ^^^ xorFold v := by
  simp only [xorFold, List.foldl_append]
  rw [foldl_xor_hoist v (List.foldl (fun prev cur => prev ^^^ cur) 0 u)]
  rfl

/-- Changing one element of a list shifts its XOR fold by `old ^^^ new`. -/
theorem xorFold_set (l : List Nat) (j : Nat) (b : Nat) (hj : j < l.length) :
    xorFold (l.set j b) = xorFold l ^^^ l.getD j 0 ^^^ b := by
  induction l generalizing j with
  | nil => simp at hj
  | cons x t ih =>
    cases j with
    | zero =>
      simp only [List.set, xorFold_cons, List.getD_cons_zero, Nat.xor_assoc]
      have hx : x ^^^ (x ^^^ b) = b := by
        rw [← Nat.xor_assoc, Nat.xor_self, Nat.zero_xor]
      rw [Nat.xor_comm (xorFold t) (x ^^^ b),
        ← Nat.xor_assoc x (x ^^^ b) (xorFold t), hx]
    | succ j' =>
      simp only [List.set, xorFold_cons, List.getD_cons_succ]
      have hj' : j' < t.length := by simpa using hj
      rw [ih j' hj']
      simp only [Nat.xor_assoc]

theorem xor_left_cancel {x a b : Nat} (h : x ^^^ a = x ^^^ b) : a = b := by
  have := congrArg (fun y => x ^^^ y) h
  simpa [← Nat.xor_assoc, Nat.xor_self, Nat.zero_xor] using this

/-- The message kinds that matter for dynamic dispatch (`instanceof` checks and
`isReply` overrides) in `src/ant/Messages.ts`.  Configuration-style messages
that do not override `Message.isReply` use `base`. -/
inductive MsgKind where
  | base
  | broadcast
  | startup
  | channelStatus
  | channelId
  | channelEvent
  | reset
  | request (expected : Nat)
deriving DecidableEq

/-- A logical message: dynamic kind, numeric id, content bytes and the
`wait_for_reply` flag, mirroring the fields of `Message`. -/
structure Msg where
  kind : MsgKind
  id : Nat
  content : List Nat
  wait_for_reply : Bool
deriving DecidableEq

/-- `Message.waitForReply()`. -/
def Msg.waitForReply (m : Msg) : Bool :=
  m.wait_for_reply

/-- `Message.getId()`. -/
def Msg.getId (m : Msg) : Nat :=
  m.id

/-- `Message.getContent()`. -/
def Msg.getContent (m : Msg) : List Nat :=
  m.content

/-- `out.isReply(inm)` with dynamic dispatch on the outbound message's class:
`ResetMessage` matches any message with the `StartupMessage` id,
`BroadcastMessage` matches a `ChannelEvent` with code `EVENT_TX` (0x03),
`RequestMessage` matches the requested message id, and every other class
inherits `Message.isReply`: a `ChannelEvent` whose event code
(`getContent()[2]`) is `RESPONSE_NO_ERROR` (0x00). -/
def Msg.isReply (out : Msg) (inm : Msg) : Bool :=
  match out.kind with
  | .reset => inm.id == 0x6f
  | .broadcast => inm.kind == .channelEvent && inm.content.get? 2 == some 0x03
  | .request expected => inm.id == expected
  | _ => inm.kind == .channelEvent && inm.content.get? 2 == some 0x00

/-- `Message.checksum(id, content)` (static): XOR fold of
`[SYNC_BYTE, content.length, id, ...content]`. -/
def msgChecksum (id : Nat) (content : List Nat) : Nat :=
  xorFold (0xa4 :: content.length :: id :: content)

/-- `Message.encode()`: `[SYNC, LEN, ID] ++ content ++ [checksum]`, truncated
bytewise by the `Uint8Array` construction. -/
def encodeFrame (id : Nat) (content : List Nat) : List Nat :=
  ((0xa4 :: content.length :: id :: content) ++ [msgChecksum id content]).map
    (· % 256)

def encodeMsg (m : Msg) : List Nat :=
  encodeFrame m.id m.content

/-- The switch inside `buildMessage` that selects the message class from the
numeric id (`Messages.ts`): broadcast, startup, channel status, channel id,
channel event; unknown ids fall back to a plain `Message`.
`StartupMessage` and `ChannelStatusMessage` construct with
`wait_for_reply = false`, every other branch keeps the default `true`. -/
def classifyMessage (id : Nat) (content : List Nat) : Msg :=
  if id = 0x4e then ⟨.broadcast, 0x4e, content, true⟩
  else if id = 0x6f then ⟨.startup, 0x6f, content, false⟩
  else if id = 0x52 then ⟨.channelStatus, 0x52, content, false⟩
  else if id = 0x51 then ⟨.channelId, 0x51, content, true⟩
  else if id = 0x40 then ⟨.channelEvent, 0x40, content, true⟩
  else ⟨.base, id, content, true⟩

/-- `buildMessage(id, content, checksum)`: throws `MessageChecksumError` when
the recomputed checksum disagrees, otherwise builds the message. -/
def buildMessage (id : Nat) (content : List Nat) (checksum : Nat) :
    Except Unit Msg :=
  if msgChecksum id content ≠ checksum then .error ()
  else .ok (classifyMessage id content)

/-- Outcome of `UsbDriver.receiveMessage` on a finite byte stream: a decoded
message, a propagated `MessageChecksumError`, or suspension because the stream
ran out before a full frame was available. -/
inductive DecodeResult where
  | ok (m : Msg)
  | checksumError
  | needMore
deriving DecidableEq

/-- `UsbDriver.receiveMessage` (`src/ant/Driver.ts`): drop bytes until a sync
byte, read the length byte, read `length + 2` further bytes (id, content,
checksum), and hand them to `buildMessage`; a checksum error propagates. -/
def decodeStream : List Nat → DecodeResult
  | [] => .needMore
  | b :: rest =>
    if b = 0xa4 then
      match rest with
      | [] => .needMore
      | len :: rest2 =>
        if rest2.length < len + 2 then .needMore
        else
          let body := rest2.take (len + 2)
          let mid := body.getD 0 0
          let mcontent := (body.drop 1).take len
          let mchk := body.getD (len + 1) 0
          match buildMessage mid mcontent mchk with
          | .ok m => .ok m
          | .error _ => .checksumError
    else decodeStream rest

theorem classifyMessage_id (id : Nat) (content : List Nat) :
    (classifyMessage id content).id = id := by
  unfold classifyMessage
  split <;> (try split) <;> (try split) <;> (try split) <;> (try split) <;>
    simp_all

theorem classifyMessage_content (id : Nat) (content : List Nat) :
    (classifyMessage id content).content = content := by
  unfold classifyMessage
  split <;> (try split) <;> (try split) <;> (try split) <;> (try split) <;>
    simp_all

theorem map_mod_eq_self {l : List Nat} (h : ∀ b ∈ l, b < 256) :
    l.map (· % 256) = l := by
  induction l with
  | nil => rfl
  | cons x t ih =>
    have hx : x < 256 := h x (by simp)
    simp only [List.map_cons, Nat.mod_eq_of_lt hx, List.cons.injEq, true_and]
    exact ih fun b hb => h b (List.mem_cons_of_mem _ hb)

theorem xorFold_lt (l : List Nat) (h : ∀ b ∈ l, b < 256) :
    xorFold l < 256 := by
  induction l with
  | nil => simp [xorFold]
  | cons x t ih =>
    rw [xorFold_cons]
    have hx : x < 256 := h x (by simp)
    have ht : xorFold t < 256 := ih fun b hb => h b (List.mem_cons_of_mem _ hb)
    have : x ^^^ xorFold t < 256 := by
      have h256 : (256 : Nat) = 2 ^ 8 := by norm_num
      rw [h256] at hx ht ⊢
      exact Nat.xor_lt_two_pow hx ht
    exact this

/-- All bytes of an encoded frame are below 256 before truncation, provided the
inputs are bytes; hence the `Uint8Array` truncation is the identity. -/
theorem encodeFrame_eq (id : Nat) (content : List Nat)
    (hid : id < 256) (hc : ∀ b ∈ content, b < 256) (hlen : content.length < 256) :
    encodeFrame id content =
      (0xa4 :: content.length :: id :: content) ++ [msgChecksum id content] := by
  unfold encodeFrame
  apply map_mod_eq_self
  intro b hb
  simp only [List.mem_append, List.mem_cons, List.mem_singleton,
    List.not_mem_nil, or_false] at hb
  rcases hb with (h | h | h | h) | h
  · omega
  · omega
  · omega
  · exact hc b h
  · subst h
    apply xorFold_lt
    intro b hb
    simp only [List.mem_cons] at hb
    rcases hb with h | h | h | h
    · omega
    · omega
    · omega
    · exact hc b h

/-- Parsing a sync byte, a length byte and a correctly sized body runs the
checksum comparison of `buildMessage` on the sliced fields. -/
theorem decodeStream_body (len : Nat) (body : List Nat)
    (h : body.length = len + 2) :
    decodeStream (0xa4 :: len :: body) =
      match buildMessage (body.getD 0 0) ((body.drop 1).take len)
          (body.getD (len + 1) 0) with
      | .ok m => .ok m
      | .error _ => .checksumError := by
  have hnot : ¬ body.length < len + 2 := by omega
  have htake : body.take (len + 2) = body := List.take_of_length_le (by omega)
  unfold decodeStream
  simp only [if_pos rfl, if_neg hnot, htake]
  exact if_pos trivial

theorem frame_shape (id : Nat) (content : List Nat) :
    (0xa4 :: content.length :: id :: content) ++ [msgChecksum id content] =
      0xa4 :: content.length ::
        (id :: (content ++ [msgChecksum id content])) := by
  simp

theorem body_getD_zero (id chk : Nat) (content : List Nat) :
    (id :: (content ++ [chk])).getD 0 0 = id := rfl

theorem body_content_slice (id chk : Nat) (content : List Nat) :
    ((id :: (content ++ [chk])).drop 1).take content.length = content := by
  simp only [List.drop_succ_cons, List.drop_zero]
  exact List.take_left content [chk]

theorem body_getD_checksum (id chk : Nat) (content : List Nat) :
    (id :: (content ++ [chk])).getD (content.length + 1) 0 = chk := by
  rw [List.getD_cons_succ, List.getD_append_right content [chk] 0
    content.length le_rfl]
  simp

/-- Claim C1: decoding the encoded frame of a byte-valued id and content list
succeeds without a checksum error and yields a message whose `getId()` is the
original id and whose `getContent()` is the original content. -/
theorem decode_encode_roundtrip (id : Nat) (content : List Nat)
    (hid : id < 256) (hc : ∀ b ∈ content, b < 256)
    (hlen : content.length < 256) :
    ∃ m, decodeStream (encodeFrame id content) = .ok m ∧
      m.getId = id ∧ m.getContent = content := by
  refine ⟨classifyMessage id content, ?_, classifyMessage_id id content,
    classifyMessage_content id content⟩
  rw [encodeFrame_eq id content hid hc hlen, frame_shape,
    decodeStream_body content.length _ (by simp),
    body_getD_zero, body_content_slice, body_getD_checksum]
  simp [buildMessage]

/-- Witness for C1 at id 0x4e (broadcast) with content `[1, 2, 3]`. -/
theorem decode_encode_roundtrip_witness :
    ∃ m, decodeStream (encodeFrame 0x4e [1, 2, 3]) = .ok m ∧
      m.getId = 0x4e ∧ m.getContent = [1, 2, 3] :=
  decode_encode_roundtrip 0x4e [1, 2, 3] (by decide) (by decide) (by decide)

/-- `ExtendableMessage.isExtended()`: content longer than 9 bytes. -/
def isExtended (content : List Nat) : Bool :=
  content.length > 9

/-- `ExtendableMessage.hasChannelOutput()`: bit 0x80 of the flag byte at
content offset 9.  `getD _ 0` matches JS, where `undefined & mask` is 0. -/
def hasChannelOutput (content : List Nat) : Bool :=
  (content.getD 9 0) &&& 0x80 == 0x80

/-- `ExtendableMessage.hasRSSI()`: bit 0x40 of the flag byte. -/
def hasRSSI (content : List Nat) : Bool :=
  (content.getD 9 0) &&& 0x40 == 0x40

/-- `ExtendableMessage.hasTimestamp()`: bit 0x20 of the flag byte. -/
def hasTimestamp (content : List Nat) : Bool :=
  (content.getD 9 0) &&& 0x20 == 0x20

/-- `ExtendableMessage.getRSSIValue()`: base offset 11, shifted by 4 when the
channel-output block precedes it. -/
def getRSSIValue (content : List Nat) : Nat :=
  content.getD (11 + (if hasChannelOutput content then 4 else 0)) 0

/-- `ExtendableMessage.getTimestamp()`: base offset 10; the offset shift is 7
when both the channel-output block and the RSSI field precede it, and 4 when
only the channel-output block does. -/
def getTimestamp (content : List Nat) : Nat :=
  let offset := if hasChannelOutput content then
    (if hasRSSI content then 7 else 4) else 0
  ((content.getD (10 + offset) 0) <<< 8) + content.getD (11 + offset) 0

/-- Claim C6 (amended): with flag byte 0xE0 at content offset 9 the three
presence bits are set, `getRSSIValue` reads `content[11 + 4]`, and
`getTimestamp` reads the two bytes starting at `content[10 + 7]` (offset 7
because both the channel-output block and the RSSI byte precede it — not
`content[10 + 4]` as the original claim stated); a content of length at most 9
is never extended. -/
theorem extendable_accessors_flag_e0 (c0 c1 c2 c3 c4 c5 c6 c7 c8 c10 c11 c12
    c13 c14 c15 c16 c17 c18 : Nat) :
    hasChannelOutput [c0, c1, c2, c3, c4, c5, c6, c7, c8, 0xe0, c10, c11, c12,
      c13, c14, c15, c16, c17, c18] = true ∧
    hasRSSI [c0, c1, c2, c3, c4, c5, c6, c7, c8, 0xe0, c10, c11, c12, c13,
      c14, c15, c16, c17, c18] = true ∧
    hasTimestamp [c0, c1, c2, c3, c4, c5, c6, c7, c8, 0xe0, c10, c11, c12,
      c13, c14, c15, c16, c17, c18] = true ∧
    isExtended [c0, c1, c2, c3, c4, c5, c6, c7, c8, 0xe0, c10, c11, c12, c13,
      c14, c15, c16, c17, c18] = true ∧
    getRSSIValue [c0, c1, c2, c3, c4, c5, c6, c7, c8, 0xe0, c10, c11, c12,
      c13, c14, c15, c16, c17, c18] = c15 ∧
    getTimestamp [c0, c1, c2, c3, c4, c5, c6, c7, c8, 0xe0, c10, c11, c12,
      c13, c14, c15, c16, c17, c18] = (c17 <<< 8) + c18 ∧
    (∀ d : List Nat, isExtended (d.take 9) = false) := by
  have h80 : (224 &&& 128 : Nat) = 128 := by decide
  have h40 : (224 &&& 64 : Nat) = 64 := by decide
  have h20 : (224 &&& 32 : Nat) = 32 := by decide
  refine ⟨?_, ?_, ?_, ?_, ?_, ?_, fun d => ?_⟩
  · simp [hasChannelOutput, h80]
  · simp [hasRSSI, h40]
  · simp [hasTimestamp, h20]
  · simp [isExtended]
  · simp [getRSSIValue, hasChannelOutput, h80]
  · simp [getTimestamp, hasChannelOutput, hasRSSI, h80, h40]
  · simp only [isExtended, List.length_take, gt_iff_lt,
      decide_eq_false_iff_not, not_lt]
    omega

/-- Counterexample to C6 as stated: with flag byte 0xE0 the code reads the
timestamp at `content[10 + 7]` and `content[11 + 7]`, not at the claimed
`content[10 + 4]` and `content[11 + 4]`. -/
theorem extendable_timestamp_offset_counterexample :
    getTimestamp [0, 1, 2, 3, 4, 5, 6, 7, 8, 0xe0, 10, 11, 12, 13, 14, 15,
      16, 17, 18] =
      (17 <<< 8) + 18 ∧
    getTimestamp [0, 1, 2, 3, 4, 5, 6, 7, 8, 0xe0, 10, 11, 12, 13, 14, 15,
      16, 17, 18] ≠
      (14 <<< 8) + 15 := by
  decide

theorem xor_right_cancel {a b x : Nat} (h : a ^^^ x = b ^^^ x) : a = b := by
  have := congrArg (fun y => y ^^^ x) h
  simpa [Nat.xor_assoc, Nat.xor_self, Nat.xor_zero] using this

theorem msgChecksum_expand (id : Nat) (content : List Nat) :
    msgChecksum id content =
      0xa4 ^^^ (content.length ^^^ (id ^^^ xorFold content)) := by
  unfold msgChecksum
  rw [xorFold_cons, xorFold_cons, xorFold_cons]

/-- Two frames that differ only in the id byte have different checksums. -/
theorem msgChecksum_ne_of_id_ne (id id' : Nat) (content : List Nat)
    (h : id ≠ id') : msgChecksum id content ≠ msgChecksum id' content := by
  intro heq
  rw [msgChecksum_expand, msgChecksum_expand] at heq
  exact h (xor_right_cancel (xor_left_cancel (xor_left_cancel heq)))

/-- Changing one content byte changes the checksum. -/
theorem msgChecksum_ne_of_content_set (id k b : Nat) (content : List Nat)
    (hk : k < content.length) (h : b ≠ content.getD k 0) :
    msgChecksum id (content.set k b) ≠ msgChecksum id content := by
  intro heq
  rw [msgChecksum_expand, msgChecksum_expand, List.length_set] at heq
  have hfold : xorFold (content.set k b) = xorFold content :=
    xor_left_cancel (xor_left_cancel (xor_left_cancel heq))
  rw [xorFold_set content k b hk, Nat.xor_assoc] at hfold
  have h0 : content.getD k 0 ^^^ b = 0 := by
    have := xor_left_cancel (x := xorFold content)
      (hfold.trans (Nat.xor_zero (xorFold content)).symm)
    exact this
  exact h (Nat.xor_eq_zero.mp h0).symm

/-- Claim C5 (amended): corrupting any byte of a valid encoded frame at a
position `i ≥ 2` — the id byte, a content byte or the checksum byte — to a
different value makes the decoder raise the checksum error.  (Positions 0 and
1, the sync and length bytes, are excluded: a corrupted sync byte is dropped
by the resynchronisation loop instead.) -/
theorem corrupt_frame_checksum_error (id : Nat) (content : List Nat)
    (i b : Nat) (hid : id < 256) (hc : ∀ x ∈ content, x < 256)
    (hlen : content.length < 256) (h2 : 2 ≤ i)
    (hi : i < (encodeFrame id content).length)
    (hne : b ≠ (encodeFrame id content).getD i 0) :
    decodeStream ((encodeFrame id content).set i b) = .checksumError := by
  obtain ⟨j, rfl⟩ : ∃ j, i = j + 2 := ⟨i - 2, by omega⟩
  rw [encodeFrame_eq id content hid hc hlen, frame_shape] at hi hne ⊢
  have hbody : j < content.length + 2 := by
    simp only [List.length_cons, List.length_append, List.length_nil] at hi
    omega
  have hset : (0xa4 :: content.length ::
      (id :: (content ++ [msgChecksum id content]))).set (j + 2) b =
      0xa4 :: content.length ::
        ((id :: (content ++ [msgChecksum id content])).set j b) := rfl
  rw [hset]
  rw [List.getD_cons_succ, List.getD_cons_succ] at hne
  match j, hbody with
  | 0, _ =>
    rw [body_getD_zero] at hne
    have hset0 : (id :: (content ++ [msgChecksum id content])).set 0 b =
        b :: (content ++ [msgChecksum id content]) := rfl
    rw [hset0, decodeStream_body content.length _ (by simp),
      body_getD_zero, body_content_slice, body_getD_checksum]
    have hneq : msgChecksum b content ≠ msgChecksum id content :=
      msgChecksum_ne_of_id_ne b id content hne
    simp [buildMessage, hneq]
  | k + 1, hb1 =>
    rw [List.getD_cons_succ] at hne
    have hsetsucc : (id :: (content ++ [msgChecksum id content])).set
        (k + 1) b = id :: ((content ++ [msgChecksum id content]).set k b) :=
      rfl
    rw [hsetsucc]
    rcases Nat.lt_or_ge k content.length with hk | hk
    · -- a content byte is corrupted
      rw [List.getD_append content [msgChecksum id content] 0 k hk] at hne
      rw [List.set_append_left k b hk]
      have hlenset : content.length = (content.set k b).length :=
        (List.length_set content k b).symm
      rw [hlenset, decodeStream_body ((content.set k b).length) _ (by simp),
        body_getD_zero, body_content_slice, body_getD_checksum]
      have hneq : msgChecksum id (content.set k b) ≠ msgChecksum id content :=
        msgChecksum_ne_of_content_set id k b content hk hne
      simp [buildMessage, hneq]
    · -- the checksum byte is corrupted
      have hkeq : k = content.length := by omega
      subst hkeq
      rw [List.getD_append_right content [msgChecksum id content] 0
        content.length le_rfl] at hne
      simp only [Nat.sub_self, List.getD_cons_zero] at hne
      rw [List.set_append_right content.length b le_rfl]
      simp only [Nat.sub_self]
      have hset1 : ([msgChecksum id content].set 0 b) = [b] := rfl
      rw [hset1, decodeStream_body content.length _ (by simp),
        body_getD_zero, body_content_slice, body_getD_checksum]
      have hneq : msgChecksum id content ≠ b := fun h => hne h.symm
      simp [buildMessage, hneq]

/-- Witness for the amended C5: corrupting the first content byte of the
frame for id 1, content `[2, 3]` yields the checksum error. -/
theorem corrupt_frame_checksum_error_witness :
    decodeStream ((encodeFrame 1 [2, 3]).set 3 9) = .checksumError :=
  corrupt_frame_checksum_error 1 [2, 3] 3 9 (by decide) (by decide)
    (by decide) (by decide) (by decide) (by decide)

/-- `ResetMessage`: id 0x4a, content `[0x00]`; overrides `isReply` to match
the `StartupMessage` id. -/
def ResetMessage : Msg :=
  ⟨.reset, 0x4a, [0x00], true⟩

/-- `StartupMessage(message)`: id 0x6f, `wait_for_reply = false`. -/
def StartupMessage (message : List Nat) : Msg :=
  ⟨.startup, 0x6f, message, false⟩

/-- `SetNetworkKeyMessage(key, network_number)`. -/
def SetNetworkKeyMessage (key : List Nat) (network_number : Nat) : Msg :=
  ⟨.base, 0x46, network_number :: key, true⟩

/-- `ExtendedAssignmentOptions`, all flags defaulting to false as in the
default parameter of `AssignChannelMessage`. -/
structure ExtendedAssignmentOptions where
  background_scanning_enable : Bool := false
  frequency_agility_enable : Bool := false
  fast_channel_init_enable : Bool := false
  asynchronous_transmission_enable : Bool := false
deriving DecidableEq

/-- The extended-assignment byte computed in `AssignChannelMessage`. -/
def extendedAssignmentByte (options : ExtendedAssignmentOptions) : Nat :=
  0x00 |||
  (if options.background_scanning_enable then 0x01 else 0x00) |||
  (if options.frequency_agility_enable then 0x04 else 0x00) |||
  (if options.fast_channel_init_enable then 0x10 else 0x00) |||
  (if options.asynchronous_transmission_enable then 0x20 else 0x00)

/-- `AssignChannelMessage(type, channel_number, network_number, options)`:
the extended-assignment byte is appended only when non-zero. -/
def AssignChannelMessage (channelType channel_number network_number : Nat)
    (options : ExtendedAssignmentOptions) : Msg :=
  let b := extendedAssignmentByte options
  ⟨.base, 0x42,
    if b = 0 then [channel_number, channelType, network_number]
    else [channel_number, channelType, network_number, b], true⟩

/-- `SetChannelIdMessage(deviceType, channel_number)`. -/
def SetChannelIdMessage (deviceType channel_number : Nat) : Msg :=
  ⟨.base, 0x51, [channel_number, 0x00, 0x00, deviceType, 0x00], true⟩

/-- `SetChannelPeriodMessage(period, channel_number)`: the 16-bit period is
written little-endian. -/
def SetChannelPeriodMessage (period channel_number : Nat) : Msg :=
  ⟨.base, 0x43, [channel_number, period % 256, period / 256 % 256], true⟩

/-- `SetChannelRfFrequencyMessage(frequency, channel_number)`. -/
def SetChannelRfFrequencyMessage (frequency channel_number : Nat) : Msg :=
  ⟨.base, 0x45, [channel_number, frequency], true⟩

/-- `OpenRxScanModeMessage(sync_packets_only)`. -/
def OpenRxScanModeMessage (sync_packets_only : Bool) : Msg :=
  ⟨.base, 0x5b, [0x00, if sync_packets_only then 0x01 else 0x00], true⟩

/-- `OpenChannelMessage(channel_number)`. -/
def OpenChannelMessage (channel_number : Nat) : Msg :=
  ⟨.base, 0x4b, [channel_number], true⟩

/-- `min(255, max(0, Math.round(timeout_in_seconds / 2.5)))` for a whole
number of seconds: `Math.round(s / 2.5) = ⌊(4 s + 5) / 10⌋` on naturals. -/
def searchTimeoutCounts (timeout_in_seconds : Nat) : Nat :=
  min 255 ((4 * timeout_in_seconds + 5) / 10)

/-- `SetChannelHighPrioritySearchTimeoutMessage(channel_number, timeout)`. -/
def SetChannelHighPrioritySearchTimeoutMessage
    (channel_number timeout_in_seconds : Nat) : Msg :=
  ⟨.base, 0x44, [channel_number, searchTimeoutCounts timeout_in_seconds],
    true⟩

/-- `SetChannelLowPrioritySearchTimeoutMessage(channel_number, timeout)`. -/
def SetChannelLowPrioritySearchTimeoutMessage
    (channel_number timeout_in_seconds : Nat) : Msg :=
  ⟨.base, 0x63, [channel_number, searchTimeoutCounts timeout_in_seconds],
    true⟩

/-- `RequestMessage(channel_number, message_id, callback)`: the decode
callback closure is not part of the byte-level model; `isReply` matches any
inbound message with the requested id. -/
def RequestMessage (channel_number message_id : Nat) : Msg :=
  ⟨.request message_id, 0x4d, [channel_number, message_id], true⟩

/-- `ChannelStatusMessage(content)`: id 0x52, `wait_for_reply = false`. -/
def ChannelStatusMessage (content : List Nat) : Msg :=
  ⟨.channelStatus, 0x52, content, false⟩

/-- `ChannelEvent.create(channel_number, initiating_message_id, code)`. -/
def ChannelEventCreate
    (channel_number initiating_message_id response_code : Nat) : Msg :=
  ⟨.channelEvent, 0x40,
    [channel_number, initiating_message_id, response_code], true⟩

/-- `BroadcastMessage.create(data, channel_number)`. -/
def BroadcastMessageCreate (data : List Nat) (channel_number : Nat) : Msg :=
  ⟨.broadcast, 0x4e, channel_number :: data, true⟩

/-- Counterexample to C5 as stated: corrupting the sync byte (position 0,
which is not the length byte) of the valid frame for id 0 and content
`[0xa4, 0, 0, 0xa4]` does not raise a checksum error — the decoder drops the
corrupted byte, resynchronises on the 0xa4 inside the content, and decodes an
embedded frame successfully. -/
theorem corrupt_sync_decodes_successfully :
    decodeStream ((encodeFrame 0 [0xa4, 0, 0, 0xa4]).set 0 0) =
      .ok ⟨.base, 0, [], true⟩ ∧
    (0 : Nat) ≠ 1 ∧
    (0 : Nat) ≠ (encodeFrame 0 [0xa4, 0, 0, 0xa4]).getD 0 0 := by
  decide

/-- A pending-acknowledgment entry (`PendingMessage` in `Node.ts`): the
outbound message, its completion callback (`none` models a null or undefined
callback, `some k` an opaque callback identity) and the `pending_since`
timestamp. -/
structure PendingEntry where
  message : Msg
  callback : Option Nat
  pending_since : Nat
deriving DecidableEq

/-- An entry of the outbound FIFO (`QueuedMessage` in `Node.ts`). -/
structure QueuedEntry where
  message : Msg
  callback : Option Nat
deriving DecidableEq

/-- Result of one `Node.receiveMessage` call: the updated pending table, the
callbacks that fired, and the message returned to the cycle. -/
structure RecvOutcome where
  pending : List PendingEntry
  fired : List Nat
  delivered : Msg
deriving DecidableEq

/-- `Node.receiveMessage`: receive one message from the driver; if the pending
table is non-empty, shift its oldest entry; when `oldest.message.isReply`
matches, fire its callback (if non-null) and leave it removed, otherwise
unshift it back to the front.  The inbound message is returned either way. -/
def nodeReceiveMessage : List PendingEntry → Msg → RecvOutcome
  | [], inm => ⟨[], [], inm⟩
  | oldest :: rest, inm =>
    if oldest.message.isReply inm then ⟨rest, oldest.callback.toList, inm⟩
    else ⟨oldest :: rest, [], inm⟩

/-- `Node.sendMessage(message, callback)`: when the message waits for a reply,
append a pending entry (with the callback and the current time) before
transmitting; the driver then writes one encoded frame.  Returns the updated
pending table and the transmitted frames. -/
def nodeSendMessage (pending : List PendingEntry) (m : Msg)
    (callback : Option Nat) (now : Nat) :
    List PendingEntry × List (List Nat) :=
  (if m.waitForReply then pending ++ [⟨m, callback, now⟩] else pending,
   [encodeMsg m])

/-- The connection manager's state: the `connected` flag, the driver's open
flag, the outbound FIFO and the pending-acknowledgment table. -/
structure NodeState where
  connected : Bool
  driver_open : Bool
  out_queue : List QueuedEntry
  pending : List PendingEntry
deriving DecidableEq

/-- `Node.isConnected()`: `driver.isOpen() && connected`. -/
def nodeIsConnected (s : NodeState) : Bool :=
  s.driver_open && s.connected

/-- `Node.disconnect(close_driver)`: throws `NotConnectedError` when not
connected; otherwise optionally closes the driver, empties the outbound queue
(`out_queue.splice(0)`) and clears the connected flag.  The pending table is
not touched. -/
def disconnect (s : NodeState) (close_driver : Bool) :
    Except Unit NodeState :=
  if !s.connected then .error ()
  else .ok { s with
    driver_open := if close_driver then false else s.driver_open,
    out_queue := [],
    connected := false }

/-- Claim C3: one `Node.receiveMessage` call tests the inbound message against
only the oldest pending entry: on a match that entry's callback fires and
exactly that entry is removed, otherwise the table is unchanged (the oldest
entry is put back at the front, later entries are never tested), and in both
cases — also with an empty table — the inbound message is returned for
delivery to `processMessage`. -/
theorem receive_tests_only_oldest (pending : List PendingEntry)
    (oldest : PendingEntry) (rest : List PendingEntry) (inm : Msg) :
    (nodeReceiveMessage pending inm).delivered = inm ∧
    nodeReceiveMessage [] inm = ⟨[], [], inm⟩ ∧
    (pending = oldest :: rest →
      (oldest.message.isReply inm = true →
        nodeReceiveMessage pending inm =
          ⟨rest, oldest.callback.toList, inm⟩) ∧
      (oldest.message.isReply inm = false →
        nodeReceiveMessage pending inm = ⟨oldest :: rest, [], inm⟩)) := by
  refine ⟨?_, rfl, ?_⟩
  · cases pending with
    | nil => rfl
    | cons oldest0 rest0 =>
      simp only [nodeReceiveMessage]
      split <;> rfl
  · rintro rfl
    constructor
    · intro hm
      simp only [nodeReceiveMessage]
      rw [if_pos hm]
    · intro hm
      simp only [nodeReceiveMessage]
      rw [if_neg (by simp [hm])]

/-- Witness for C3: a pending `ResetMessage` entry with callback 7 is matched
and removed by an inbound `StartupMessage`, firing the callback. -/
theorem receive_tests_only_oldest_witness :
    nodeReceiveMessage [⟨ResetMessage, some 7, 0⟩] (StartupMessage [0x20]) =
      ⟨[], [7], StartupMessage [0x20]⟩ :=
  ((receive_tests_only_oldest [⟨ResetMessage, some 7, 0⟩]
    ⟨ResetMessage, some 7, 0⟩ [] (StartupMessage [0x20])).2.2 rfl).1 rfl

/-- Claim C8 (amended): `disconnect` fails with `NotConnected` exactly when
the connected flag is false; when connected it empties the outbound FIFO,
closes the transport exactly when `close_driver` is true, and leaves the
manager disconnected — but the pending-acknowledgment table is left in place,
not discarded (its callbacks are never invoked). -/
theorem disconnect_spec (s : NodeState) (close_driver : Bool)
    (h : s.connected = true) :
    disconnect { s with connected := false } close_driver = .error () ∧
    ∃ s2, disconnect s close_driver = .ok s2 ∧
      s2.out_queue = [] ∧
      s2.connected = false ∧
      nodeIsConnected s2 = false ∧
      s2.pending = s.pending ∧
      s2.driver_open = (!close_driver && s.driver_open) := by
  constructor
  · rfl
  · refine ⟨{ s with
      connected := false,
      driver_open := if close_driver then false else s.driver_open,
      out_queue := [] }, ?_, rfl, rfl, ?_, rfl, ?_⟩
    · unfold disconnect
      rw [h]
      rfl
    · simp [nodeIsConnected]
    · cases close_driver <;> simp

/-- Witness for C8 at a connected state with one pending entry. -/
theorem disconnect_spec_witness :
    disconnect ⟨false, true, [], [⟨ResetMessage, some 1, 0⟩]⟩ true =
      .error () ∧
    ∃ s2, disconnect ⟨true, true, [], [⟨ResetMessage, some 1, 0⟩]⟩ true =
        .ok s2 ∧
      s2.out_queue = [] ∧
      s2.connected = false ∧
      nodeIsConnected s2 = false ∧
      s2.pending = [⟨ResetMessage, some 1, 0⟩] ∧
      s2.driver_open = (!true && true) :=
  disconnect_spec ⟨true, true, [], [⟨ResetMessage, some 1, 0⟩]⟩ true rfl

/-- Counterexample to C8 as stated: disconnecting a connected manager that has
an in-flight pending entry leaves that entry in the pending table — it is not
discarded. -/
theorem disconnect_keeps_pending_counterexample :
    disconnect ⟨true, true, [], [⟨ResetMessage, some 1, 0⟩]⟩ true =
      .ok ⟨false, false, [], [⟨ResetMessage, some 1, 0⟩]⟩ ∧
    ([⟨ResetMessage, some 1, 0⟩] : List PendingEntry) ≠ [] := by
  constructor
  · rfl
  · intro h
    simp at h

/-- Claim C10: every message class that does not override the base
`Message.isReply` — the configuration-style messages — accepts any inbound
`ChannelEvent` whose event code is `RESPONSE_NO_ERROR` (0x00), regardless of
its channel number and of its initiating-message-id byte; consequently such an
acknowledgment, even one generated for a different command, completes the
oldest pending configuration entry. -/
theorem base_isReply_accepts_any_no_error (ch init n t p f dt tmo : Nat)
    (key : List Nat) (o : ExtendedAssignmentOptions) (b : Bool) (cb : Nat)
    (rest : List PendingEntry) :
    (SetNetworkKeyMessage key n).isReply (ChannelEventCreate ch init 0) =
      true ∧
    (AssignChannelMessage t ch n o).isReply (ChannelEventCreate ch init 0) =
      true ∧
    (SetChannelIdMessage dt ch).isReply (ChannelEventCreate ch init 0) =
      true ∧
    (SetChannelPeriodMessage p ch).isReply (ChannelEventCreate ch init 0) =
      true ∧
    (SetChannelRfFrequencyMessage f ch).isReply (ChannelEventCreate ch init 0)
      = true ∧
    (OpenChannelMessage ch).isReply (ChannelEventCreate ch init 0) = true ∧
    (OpenRxScanModeMessage b).isReply (ChannelEventCreate ch init 0) = true ∧
    (SetChannelHighPrioritySearchTimeoutMessage ch tmo).isReply
      (ChannelEventCreate ch init 0) = true ∧
    (SetChannelLowPrioritySearchTimeoutMessage ch tmo).isReply
      (ChannelEventCreate ch init 0) = true ∧
    nodeReceiveMessage (⟨SetChannelPeriodMessage p 0, some cb, 0⟩ :: rest)
      (ChannelEventCreate ch init 0) =
      ⟨rest, [cb], ChannelEventCreate ch init 0⟩ := by
  have hrep : (SetChannelPeriodMessage p 0).isReply
      (ChannelEventCreate ch init 0) = true := rfl
  refine ⟨rfl, rfl, rfl, rfl, rfl, rfl, rfl, rfl, rfl, ?_⟩
  simp [nodeReceiveMessage, hrep]

/-- One scheduler step during the wait loop of the retrying
`UsbDriver.sendMessage`: either the retry timer fires (`tick`, once per
1000 ms interval) or one inbound message completes (`recv`). -/
inductive SendAction where
  | tick
  | recv
deriving DecidableEq

/-- An observable event of `UsbDriver.sendMessage`: a frame written to the
transport (`transferOut`) at the given time in ms after the initial send, or
the completion callback firing. -/
inductive SendEvent where
  | tx (bytes : List Nat) (time : Nat)
  | cbFired (cb : Nat)
deriving DecidableEq

/-- `if (callback !== null) callback()`. -/
def cbEvents : Option Nat → List SendEvent
  | some c => [.cbFired c]
  | none => []

/-- The wait-for-ACK loop of the retrying `UsbDriver.sendMessage`: each timer
tick retransmits the identical encoded frame; each received message is tested
with `out_message.isReply`; on the first match the loop breaks, the retry
interval is cleared and the callback fires.  A `recv` step with an empty inbox
delivers nothing (the receive is still blocked). -/
def sendLoop (m : Msg) (callback : Option Nat) :
    List SendAction → List Msg → Nat → List SendEvent
  | [], _, _ => []
  | .tick :: as, inbox, k =>
    .tx (encodeMsg m) (1000 * (k + 1)) :: sendLoop m callback as inbox (k + 1)
  | .recv :: as, [], k => sendLoop m callback as [] k
  | .recv :: as, x :: rest, k =>
    if m.isReply x then cbEvents callback
    else sendLoop m callback as rest k

/-- Whether the schedule delivers an inbound message matching `m.isReply` to
the wait loop. -/
def loopMatches (m : Msg) : List SendAction → List Msg → Bool
  | [], _ => false
  | .tick :: as, inbox => loopMatches m as inbox
  | .recv :: as, [] => loopMatches m as []
  | .recv :: as, x :: rest =>
    if m.isReply x then true else loopMatches m as rest

/-- The full retrying `UsbDriver.sendMessage(out_message, callback)`: one
initial transmission, then — when the message waits for a reply — the wait
loop with its 1000 ms retry timer; a fire-and-forget message skips the loop
(the interval is set and cleared with no suspension in between, so it never
fires) and the callback runs immediately. -/
def sendRun (m : Msg) (callback : Option Nat) (acts : List SendAction)
    (inbox : List Msg) : List SendEvent :=
  .tx (encodeMsg m) 0 ::
    (if m.waitForReply then sendLoop m callback acts inbox 0
     else cbEvents callback)

theorem sendLoop_shape (m : Msg) (callback : Option Nat)
    (acts : List SendAction) (inbox : List Msg) (k : Nat) :
    ∃ n, sendLoop m callback acts inbox k =
      ((List.range' (k + 1) n).map fun t => .tx (encodeMsg m) (1000 * t)) ++
        (if loopMatches m acts inbox then cbEvents callback else []) := by
  induction acts generalizing inbox k with
  | nil => exact ⟨0, by simp [sendLoop, loopMatches]⟩
  | cons a as ih =>
    cases a with
    | tick =>
      obtain ⟨n, hn⟩ := ih inbox (k + 1)
      refine ⟨n + 1, ?_⟩
      simp only [sendLoop, loopMatches, hn, List.range'_succ, List.map_cons,
        List.cons_append]
    | recv =>
      cases inbox with
      | nil =>
        obtain ⟨n, hn⟩ := ih [] k
        exact ⟨n, by simpa [sendLoop, loopMatches] using hn⟩
      | cons x rest =>
        by_cases hx : m.isReply x = true
        · refine ⟨0, ?_⟩
          simp [sendLoop, loopMatches, hx]
        · obtain ⟨n, hn⟩ := ih rest k
          rw [Bool.not_eq_true] at hx
          refine ⟨n, ?_⟩
          simpa [sendLoop, loopMatches, hx] using hn

/-- Claim C2: for a message that waits for a reply, the retrying send
primitive transmits the identical encoded frame at times 0, 1000, 2000, …
(the fixed 1000 ms retry interval), the retransmissions continue only until an
inbound message matching `isReply` arrives, and nothing is transmitted after
that match — the event trace is a block of identical transmissions followed
(exactly when the schedule delivers a match) by the completion callback. -/
theorem sendMessage_retries_until_reply (m : Msg) (callback : Option Nat)
    (acts : List SendAction) (inbox : List Msg)
    (h : m.waitForReply = true) :
    ∃ n, sendRun m callback acts inbox =
      ((List.range (n + 1)).map fun t => .tx (encodeMsg m) (1000 * t)) ++
        (if loopMatches m acts inbox then cbEvents callback else []) := by
  obtain ⟨n, hn⟩ := sendLoop_shape m callback acts inbox 0
  refine ⟨n, ?_⟩
  rw [List.range_eq_range']
  simp only [sendRun, h, if_true, hn, List.range'_succ, List.map_cons,
    List.cons_append, Nat.mul_zero]

/-- Witness for C2: a `SetNetworkKeyMessage` retried over the schedule
tick-then-recv with a matching `RESPONSE_NO_ERROR` event in the inbox. -/
theorem sendMessage_retries_until_reply_witness :
    ∃ n, sendRun (SetNetworkKeyMessage [9] 1) (some 5) [.tick, .recv]
        [ChannelEventCreate 0 0x46 0] =
      ((List.range (n + 1)).map
        fun t => .tx (encodeMsg (SetNetworkKeyMessage [9] 1)) (1000 * t)) ++
        (if loopMatches (SetNetworkKeyMessage [9] 1) [.tick, .recv]
            [ChannelEventCreate 0 0x46 0]
          then cbEvents (some 5) else []) :=
  sendMessage_retries_until_reply (SetNetworkKeyMessage [9] 1) (some 5)
    [.tick, .recv] [ChannelEventCreate 0 0x46 0] rfl

/-- Claim C7: a message that does not wait for a reply is transmitted once and
its (non-null) callback fires exactly once, immediately after that single
transmission, with no retransmission, no inbound message consumed, and — in
`Node.sendMessage` — no pending entry registered. -/
theorem sendMessage_fire_and_forget (m : Msg) (c : Nat)
    (acts : List SendAction) (inbox : List Msg)
    (pending : List PendingEntry) (callback2 : Option Nat) (now : Nat)
    (h : m.waitForReply = false) :
    sendRun m (some c) acts inbox = [.tx (encodeMsg m) 0, .cbFired c] ∧
    nodeSendMessage pending m callback2 now = (pending, [encodeMsg m]) := by
  constructor
  · simp [sendRun, h, cbEvents]
  · simp [nodeSendMessage, h]

/-- Witness for C7: a `ChannelStatusMessage` (which never waits for a reply)
sent with callback 5 over an arbitrary schedule. -/
theorem sendMessage_fire_and_forget_witness :
    sendRun (ChannelStatusMessage [0, 3]) (some 5) [.tick, .recv]
        [ChannelEventCreate 0 0 0] =
      [.tx (encodeMsg (ChannelStatusMessage [0, 3])) 0, .cbFired 5] ∧
    nodeSendMessage [] (ChannelStatusMessage [0, 3]) (some 5) 0 =
      ([], [encodeMsg (ChannelStatusMessage [0, 3])]) :=
  sendMessage_fire_and_forget (ChannelStatusMessage [0, 3]) 5
    [.tick, .recv] [ChannelEventCreate 0 0 0] [] (some 5) 0 rfl

/-- `NetworkConfig`: 8-byte key and network slot number. -/
structure NetworkConfig where
  key : List Nat
  number : Nat

/-- `ChannelConfig` from `Node.ts`; optional fields model the optional
TypeScript properties (absent = `none`). -/
structure ChannelConfig where
  number : Nat
  type : Nat
  period : Nat
  rf_frequency : Nat
  scan : Option Bool
  device_type : Nat
  network_number : Nat
  assignment_options : Option ExtendedAssignmentOptions
  wait_until_tracking : Option Bool
  hp_search_timeout_in_seconds : Option Nat
  lp_search_timeout_in_seconds : Option Nat

/-- `NodeConfig`: the reset flag (defaulted to true by the constructor when
absent), network list and channel list. -/
structure NodeConfig where
  reset : Bool
  networks : List NetworkConfig
  channels : List ChannelConfig

/-- The messages sent for one channel by `Node.initializeANTConnection`:
assign, set id, set RF frequency, set period, the optional high/low-priority
search timeouts, then either open-in-scan-mode, or open followed by the
channel-status poll loop (`polls + 1` requests when `wait_until_tracking` is
set; the loop body runs at least once and the number of further iterations is
decided by the device's status replies, so it is a parameter). -/
def channelMessages (cc : ChannelConfig) (polls : Nat) : List Msg :=
  [AssignChannelMessage cc.type cc.number cc.network_number
      (cc.assignment_options.getD {}),
    SetChannelIdMessage cc.device_type cc.number,
    SetChannelRfFrequencyMessage cc.rf_frequency cc.number,
    SetChannelPeriodMessage cc.period cc.number]
  ++ (match cc.hp_search_timeout_in_seconds with
      | some t => [SetChannelHighPrioritySearchTimeoutMessage cc.number t]
      | none => [])
  ++ (match cc.lp_search_timeout_in_seconds with
      | some t => [SetChannelLowPrioritySearchTimeoutMessage cc.number t]
      | none => [])
  ++ (if cc.scan = some true then [OpenRxScanModeMessage false]
      else OpenChannelMessage cc.number ::
        (if cc.wait_until_tracking = some true then
          List.replicate (polls + 1) (RequestMessage cc.number 0x52)
        else []))

/-- The full message sequence of `Node.initializeANTConnection`: optional
reset, one `SetNetworkKeyMessage` per configured network, then the per-channel
sequences in configured order. -/
def initializeANTConnectionMessages (cfg : NodeConfig)
    (polls : ChannelConfig → Nat) : List Msg :=
  (if cfg.reset then [ResetMessage] else [])
  ++ cfg.networks.map (fun nc => SetNetworkKeyMessage nc.key nc.number)
  ++ cfg.channels.flatMap (fun cc => channelMessages cc (polls cc))

/-- Claim C4: the handshake consists of a preamble containing only reset
(0x4a) and set-network-key (0x46) messages followed by the per-channel
sequences in configured order; each channel's sequence starts with exactly one
AssignChannel (0x42), one SetChannelId (0x51), one SetChannelRfFrequency
(0x45) and one SetChannelPeriod (0x43), in that order, then the optional
search-timeout messages (0x44 / 0x63), then the open command —
OpenRxScanMode (0x5b) when the scan flag is set, OpenChannel (0x4b) otherwise,
the latter possibly followed by channel-status requests (0x4d). -/
theorem handshake_per_channel_order (cfg : NodeConfig)
    (polls : ChannelConfig → Nat) (cc : ChannelConfig) (pollCount : Nat) :
    (∃ pre, initializeANTConnectionMessages cfg polls =
        pre ++ cfg.channels.flatMap (fun c => channelMessages c (polls c)) ∧
        ∀ m ∈ pre, m.getId = 0x4a ∨ m.getId = 0x46) ∧
    ∃ ts k, (channelMessages cc pollCount).map Msg.getId =
        [0x42, 0x51, 0x45, 0x43] ++ ts ++
          (if cc.scan = some true then [0x5b]
           else 0x4b :: List.replicate k 0x4d) ∧
      (∀ t ∈ ts, t = 0x44 ∨ t = 0x63) ∧
      ((channelMessages cc pollCount).map Msg.getId).count 0x42 = 1 ∧
      ((channelMessages cc pollCount).map Msg.getId).count 0x51 = 1 ∧
      ((channelMessages cc pollCount).map Msg.getId).count 0x45 = 1 ∧
      ((channelMessages cc pollCount).map Msg.getId).count 0x43 = 1 := by
  constructor
  · refine ⟨(if cfg.reset then [ResetMessage] else [])
      ++ cfg.networks.map (fun nc => SetNetworkKeyMessage nc.key nc.number),
      ?_, ?_⟩
    · simp [initializeANTConnectionMessages]
    · intro m hm
      simp only [List.mem_append, List.mem_map] at hm
      rcases hm with hm | ⟨nc, _, rfl⟩
      · left
        rcases hr : cfg.reset with _ | _ <;> rw [hr] at hm <;> simp at hm
        rw [hm]
        rfl
      · right
        rfl
  · obtain ⟨num, ty, per, rf, sc, dt, nn, ao, wt, hp, lp⟩ := cc
    refine ⟨(match hp with | some _ => [0x44] | none => [])
      ++ (match lp with | some _ => [0x63] | none => []),
      (if wt = some true then pollCount + 1 else 0),
      ?_, ?_, ?_, ?_, ?_, ?_⟩ <;>
    rcases hp with _ | t1 <;>
    rcases lp with _ | t2 <;>
    by_cases hs : sc = some true <;>
    by_cases hw : wt = some true <;>
    simp [channelMessages, hs, hw, Msg.getId, AssignChannelMessage,
      SetChannelIdMessage, SetChannelRfFrequencyMessage,
      SetChannelPeriodMessage, SetChannelHighPrioritySearchTimeoutMessage,
      SetChannelLowPrioritySearchTimeoutMessage, OpenRxScanModeMessage,
      OpenChannelMessage, RequestMessage, List.count_replicate,
      List.count_cons, List.count_append]

/-- `BushidoDataMessage(slope, weight, channel_number)` content bytes, with
the slope given in tenths of a percent (`slope_tenths = Math.round(slope *
10)`; the float multiplication itself is outside the byte-level model:
−12.3 % ↦ −123, +5.0 % ↦ 50).  The code clamps to the device range
`[-50, 200]` and encodes a negative clamped value as `256 + value` in the
magnitude byte with 0xFF in the sign byte. -/
def bushidoDataMessageContent (slope_tenths : Int)
    (weight channel_number : Nat) : List Nat :=
  let corrected_slope : Int := max (-50) (min 200 slope_tenths)
  if corrected_slope < 0 then
    [channel_number, 0xdc, 0x01, 0x00, 0xff, (256 + corrected_slope).toNat,
      weight, 0x00, 0x00]
  else
    [channel_number, 0xdc, 0x01, 0x00, 0x00, corrected_slope.toNat, weight,
      0x00, 0x00]

/-- Claim C9 (amended): the Bushido data message encodes the slope clamped to
the device range −5.0 %…+20.0 % in tenths; +5.0 % (50 tenths) encodes to
(sign 0x00, magnitude 50); −12.3 % (−123 tenths) lies below the −5.0 % bound,
so it clamps and encodes to (sign 0xFF, magnitude 256 − 50 = 206) — not
magnitude 133 as the original claim stated; an in-range negative slope such as
−1.0 % encodes as 256 + value (here 246) with sign 0xFF. -/
theorem bushido_slope_encoding (slope_tenths : Int) (w ch : Nat) :
    bushidoDataMessageContent slope_tenths w ch =
      bushidoDataMessageContent (max (-50) (min 200 slope_tenths)) w ch ∧
    bushidoDataMessageContent 50 w ch =
      [ch, 0xdc, 0x01, 0x00, 0x00, 50, w, 0x00, 0x00] ∧
    bushidoDataMessageContent (-123) w ch =
      [ch, 0xdc, 0x01, 0x00, 0xff, 206, w, 0x00, 0x00] ∧
    bushidoDataMessageContent (-10) w ch =
      [ch, 0xdc, 0x01, 0x00, 0xff, 246, w, 0x00, 0x00] := by
  refine ⟨?_, ?_, ?_, ?_⟩
  · have hclamp : max (-50 : Int) (min 200 (max (-50) (min 200 slope_tenths)))
        = max (-50) (min 200 slope_tenths) := by
      rcases le_total (200 : Int) slope_tenths with h | h <;>
      rcases le_total slope_tenths (-50 : Int) with h2 | h2 <;>
      simp [max_def, min_def] <;> split_ifs <;> omega
    simp only [bushidoDataMessageContent, hclamp]
  · norm_num [bushidoDataMessageContent]
    decide
  · norm_num [bushidoDataMessageContent]
    decide
  · norm_num [bushidoDataMessageContent]
    decide

/-- Counterexample to C9 as stated: a slope of −12.3 % (−123 tenths) is below
the −5.0 % bound, so the code clamps it and emits magnitude 206, not the
claimed 133. -/
theorem bushido_slope_counterexample :
    (bushidoDataMessageContent (-123) 70 0).getD 4 0 = 0xff ∧
    (bushidoDataMessageContent (-123) 70 0).getD 5 0 = 206 ∧
    (bushidoDataMessageContent (-123) 70 0).getD 5 0 ≠ 133 := by
  decide

end Trainerjs
